import Mathlib

/-!
# Session registry and event dispatch of the websocket gateway

A shallow embedding of `internal/service/manager.go` and
`internal/service/event.go`, followed by the properties of the dispatch,
admission and deregistration paths.

Conventions of the embedding:

* a Go `map[K]V` is a `GoMap K V` (association list; `get` is the comma-ok
  lookup, `set` is `m[k] = v`, `delete` is `delete(m, k)`, `len` is `len(m)`);
* a Go `error` value is an `Option GoError` (`none` is `nil`);
* pointers (`*Client`, `*websocket.Conn`) are addresses (`Nat`);
* mutable state is threaded explicitly through a `World`; the calls the code
  makes to its collaborators are appended to `World.trace`;
* the code runs under `m.mu`, so every operation is modelled as one atomic
  step; goroutine starts are recorded in the trace, their bodies are not run.
-/

namespace Service

/-! ## Go maps -/

/-- Go map as an association list of key/value entries. -/
structure GoMap (K V : Type) where
  entries : List (K × V)

namespace GoMap

variable {K V : Type} [DecidableEq K]

/-- The result of `make(map[K]V)`. -/
def empty : GoMap K V := ⟨[]⟩

/-- Comma-ok lookup `v, ok := m[k]`: `some v` when `ok`, `none` otherwise. -/
def get (m : GoMap K V) (k : K) : Option V :=
  match m.entries.find? (fun p => decide (p.1 = k)) with
  | some p => some p.2
  | none => none

/-- Builtin `delete(m, k)`. -/
def delete (m : GoMap K V) (k : K) : GoMap K V :=
  ⟨m.entries.filter (fun p => !decide (p.1 = k))⟩

/-- Assignment `m[k] = v`. -/
def set (m : GoMap K V) (k : K) (v : V) : GoMap K V :=
  ⟨(k, v) :: (m.delete k).entries⟩

/-- Builtin `len(m)`. -/
def len (m : GoMap K V) : Nat := m.entries.length

/-- The keys present in the map. -/
def keys (m : GoMap K V) : List K := m.entries.map Prod.fst

end GoMap

/-! ## Values of `event.go` -/

/-- Go `error` value that is not `nil`. -/
structure GoError where
  msg : String
deriving DecidableEq, Repr

/-- Address of a `Client` object (`*Client`). -/
abbrev ClientPtr := Nat

/-- Address of a websocket connection (`*websocket.Conn`). -/
abbrev ConnPtr := Nat

def EventSendMessage : String := "send_message"

def EventNewMessage : String := "new_message"

def EventChangeRoom : String := "change_room"

/-- Message sent over the websocket: `Type_` is the field `Type`, `Payload` the
raw JSON bytes (`json.RawMessage`). -/
structure Event where
  Type_ : String
  Payload : List UInt8
deriving DecidableEq

/-- Handler function `func(event Event, client *Client) error`, acting on the
application state `σ` it can reach. -/
abbrev EventHandler (σ : Type) := Event → ClientPtr → σ → Option GoError × σ

/-- Handler `SendMessageHandler` of `event.go`: returns `nil`. -/
def SendMessageHandler {σ : Type} : EventHandler σ := fun _ _ s => (none, s)

/-- Handler `ChatRoomHandler` of `event.go`: returns `nil`. -/
def ChatRoomHandler {σ : Type} : EventHandler σ := fun _ _ s => (none, s)

/-! ## The one-time-password store -/

/-- Modelled from the spec: the `OTP` record type of the credential store is
not among the sources; a credential record is "a generated opaque token plus
its issuance instant". -/
structure OTP where
  Key : String
  Created : Nat
deriving DecidableEq, Repr

/-- Modelled from the spec: the `RetentionMap` type is not among the sources;
it is "a map from opaque credential strings to issuance timestamps" with a
time-to-live "fixed at construction". Instants and durations are
nanoseconds. -/
structure RetentionMap where
  records : GoMap String OTP
  retentionPeriod : Nat

/-- Modelled from the spec: `NewRetentionMap` is not among the sources; it
builds an empty store with the given time-to-live (the background sweep it
starts is a concurrent task and is not part of this model). -/
def NewRetentionMap (retentionPeriod : Nat) : RetentionMap :=
  { records := GoMap.empty, retentionPeriod := retentionPeriod }

/-- Modelled from the spec: `RetentionMap.NewOTP` is not among the sources;
`issue()` "generates a cryptographically-unpredictable opaque string, records
it with the current timestamp, returns it". The generated string `key` and the
clock reading `now` are inputs. -/
def RetentionMap.NewOTP (rm : RetentionMap) (key : String) (now : Nat) :
    OTP × RetentionMap :=
  let o : OTP := { Key := key, Created := now }
  (o, { rm with records := rm.records.set key o })

/-- Modelled from the spec: `RetentionMap.VerifyOTP` is not among the sources;
`verifyAndConsume(token)` "returns true and atomically removes the record iff
the token exists and `now - issuedAt <= ttl`; returns false and (if present but
expired) also removes the stale record". -/
def RetentionMap.VerifyOTP (rm : RetentionMap) (otp : String) (now : Nat) :
    Bool × RetentionMap :=
  match rm.records.get otp with
  | none => (false, rm)
  | some o =>
    (decide (now - o.Created ≤ rm.retentionPeriod),
      { rm with records := rm.records.delete otp })

/-! ## Manager, clients and the world -/

/-- Type `ClientList`, a `map[*Client]bool`. -/
abbrev ClientList := GoMap ClientPtr Bool

/-- Manager of `manager.go` (the mutex `mu` is not modelled). -/
structure Manager (σ : Type) where
  Clients : ClientList
  Handlers : GoMap String (EventHandler σ)
  otps : RetentionMap

/-- Modelled from the spec: the `Client` struct is not among the sources; a
Session has "the transport handle, an outbound message queue, a
back-reference to the owning Registry". Only the transport handle (the field
`connection` read by `removeClient`) is represented: there is one Manager and
the queue is used by the pumps only. -/
structure Client where
  connection : ConnPtr
deriving DecidableEq, Repr

/-- Call made by the code to one of its collaborators. -/
inductive Effect where
  | handlerCall (key : String) (event : Event) (client : ClientPtr)
  | verifyOTP (otp : String)
  | newOTP (key : String)
  | upgrade
  | newClient (conn : ConnPtr) (client : ClientPtr)
  | connClose (conn : ConnPtr)
  | goReadMessages (client : ClientPtr)
  | goWriteMessages (client : ClientPtr)
  | logPrintln (text : String)
deriving DecidableEq

/-- Everything the Manager's methods read or write: the Manager itself, the
allocated `Client` objects (`heap`, addresses below `nextClient` are in use),
how often `Close` ran on each connection, the handlers' state and the calls
made so far. -/
structure World (σ : Type) where
  m : Manager σ
  heap : ClientPtr → Client
  nextClient : ClientPtr
  closeCalls : ConnPtr → Nat
  app : σ
  trace : List Effect

/-- Append one call to the trace. -/
def World.emit {σ : Type} (w : World σ) (e : Effect) : World σ :=
  { w with trace := w.trace ++ [e] }

/-- The handler invocations recorded in a trace, oldest first. -/
def handlerCalls (t : List Effect) : List (String × Event × ClientPtr) :=
  t.filterMap fun e =>
    match e with
    | .handlerCall k ev c => some (k, ev, c)
    | _ => none

def ErrEventNotSupported : GoError := ⟨"this event type is not supported"⟩

/-- Method `setupEventHandlers`: registers the two handlers. -/
def Manager.setupEventHandlers {σ : Type} (m : Manager σ) : Manager σ :=
  let m1 := { m with Handlers := m.Handlers.set EventSendMessage SendMessageHandler }
  { m1 with Handlers := m1.Handlers.set EventChangeRoom ChatRoomHandler }

/-- Five seconds as a `time.Duration` (nanoseconds). -/
def fiveSeconds : Nat := 5 * 1000000000

/-- Constructor `NewManager` (the context only bounds the lifetime of the
store's sweep task). -/
def NewManager {σ : Type} : Manager σ :=
  let m : Manager σ :=
    { Clients := GoMap.empty
      Handlers := GoMap.empty
      otps := NewRetentionMap fiveSeconds }
  m.setupEventHandlers

/-- Method `routeEvent`: looks the event type up in `Handlers`, runs the
handler found and returns its error, or returns `ErrEventNotSupported`. The
invocation is recorded in the trace just before the handler runs. -/
def routeEvent {σ : Type} (w : World σ) (event : Event) (c : ClientPtr) :
    Option GoError × World σ :=
  match w.m.Handlers.get event.Type_ with
  | some handler =>
    let w1 := w.emit (.handlerCall event.Type_ event c)
    let r := handler event c w1.app
    match r.1 with
    | some err => (some err, { w1 with app := r.2 })
    | none => (none, { w1 with app := r.2 })
  | none => (some ErrEventNotSupported, w)

/-- World in which nothing has happened yet around the Manager `m`. -/
def World.init {σ : Type} (m : Manager σ) (app : σ) : World σ :=
  { m := m
    heap := fun _ => ⟨0⟩
    nextClient := 0
    closeCalls := fun _ => 0
    app := app
    trace := [] }

/-! ## HTTP requests and responses -/

/-- Go `map[string][]string`, the shape of `url.Values` and `http.Header`. -/
structure Values where
  data : GoMap String (List String)

/-- Method `Get` of `url.Values` and of `http.Header` (for a key in canonical
form, as `"Origin"` is): the first value stored under `key`, or `""`. -/
def Values.Get (v : Values) (key : String) : String :=
  match v.data.get key with
  | some (x :: _) => x
  | _ => ""

/-- Local type `userLoginRequest` of `LoginHandler`. -/
structure userLoginRequest where
  Username : String
  Password : String
deriving DecidableEq, Repr

/-- Request as the handlers read it: `query` is `r.URL.Query()`, `Header` is
`r.Header`, and `bodyDecode` is the outcome of
`json.NewDecoder(r.Body).Decode(&req)` on the request body (the decoded
struct, or the decoder's error). -/
structure Request where
  query : Values
  Header : Values
  bodyDecode : Except GoError userLoginRequest

/-- Local type `response` of `LoginHandler`. -/
structure response where
  OTP : String
deriving DecidableEq, Repr

/-- What was written to the response body: plain text, or the JSON object with
the given members. -/
inductive Written where
  | text (s : String)
  | json (members : List (String × String))
deriving DecidableEq

/-- The `http.ResponseWriter` of one request: the status line sent, if any,
and the body written so far. -/
structure ResponseWriter where
  status : Option Nat
  body : List Written
deriving DecidableEq

/-- Writer of a request that has not been answered yet. -/
def ResponseWriter.fresh : ResponseWriter := { status := none, body := [] }

/-- Method `WriteHeader`: the first status code sent stays. -/
def ResponseWriter.WriteHeader (w : ResponseWriter) (code : Nat) : ResponseWriter :=
  match w.status with
  | some _ => w
  | none => { w with status := some code }

/-- Method `Write`: sends status 200 first when no status was sent. -/
def ResponseWriter.Write (w : ResponseWriter) (data : Written) : ResponseWriter :=
  let w1 := w.WriteHeader 200
  { w1 with body := w1.body ++ [data] }

/-- Library function `http.Error`: sends `code` and the message as text. -/
def httpError (w : ResponseWriter) (error : String) (code : Nat) : ResponseWriter :=
  (w.WriteHeader code).Write (.text (error ++ "\n"))

def StatusOK : Nat := 200

def StatusBadRequest : Nat := 400

def StatusUnauthorized : Nat := 401

def StatusForbidden : Nat := 403

def StatusSwitchingProtocols : Nat := 101

/-- Library function `json.Marshal` on a `response`: a struct with one string
field always encodes, to the object with the member `otp`. -/
def jsonMarshal (resp : response) : Except GoError (List (String × String)) :=
  .ok [("otp", resp.OTP)]

/-! ## The upgrader -/

/-- Function `checkOrigin`: true if the `Origin` header is the allowed one. -/
def checkOrigin (r : Request) : Bool :=
  let origin := r.Header.Get "Origin"
  decide (origin = "http://localhost:8080")

/-- The fields of `websocket.Upgrader` that the program sets. -/
structure Upgrader where
  CheckOrigin : Request → Bool
  ReadBufferSize : Nat
  WriteBufferSize : Nat

def websocketUpgrader : Upgrader :=
  { CheckOrigin := checkOrigin
    ReadBufferSize := 1024
    WriteBufferSize := 1024 }

/-- Outcome of the websocket handshake checks other than the origin check,
which belong to the library and the network: a refusal with its HTTP status
and error, or the connection obtained. -/
inductive Handshake where
  | failed (status : Nat) (err : GoError)
  | accepted (conn : ConnPtr)
deriving DecidableEq

/-- Library method `Upgrader.Upgrade`: fails when the handshake fails or when
`CheckOrigin` rejects the request (status 403), answering with the error
status; otherwise switches protocols and returns the connection. -/
def Upgrader.Upgrade (u : Upgrader) (w : ResponseWriter) (r : Request) (hs : Handshake) :
    ResponseWriter × Except GoError ConnPtr :=
  match hs with
  | .failed status err => (httpError w err.msg status, .error err)
  | .accepted conn =>
    if u.CheckOrigin r then
      (w.WriteHeader StatusSwitchingProtocols, .ok conn)
    else
      let err : GoError := ⟨"websocket: request origin not allowed by Upgrader.CheckOrigin"⟩
      (httpError w err.msg StatusForbidden, .error err)

/-! ## Registration and admission -/

/-- Library method `Conn.Close` on the connection at `conn`. -/
def connClose {σ : Type} (w : World σ) (conn : ConnPtr) : World σ :=
  { w with
    closeCalls := fun c => if c = conn then w.closeCalls c + 1 else w.closeCalls c
    trace := w.trace ++ [.connClose conn] }

/-- Whether `Close` has run on the connection at `conn`. -/
def World.closed {σ : Type} (w : World σ) (conn : ConnPtr) : Bool :=
  decide (0 < w.closeCalls conn)

/-- Modelled from the spec: `NewClient` is not among the sources; admission
"constructs a Session bound to this Registry", whose "identity is the in-memory
object/reference itself": a new `Client` object holding `conn` is allocated at
the next unused address, which is returned. -/
def NewClient {σ : Type} (w : World σ) (conn : ConnPtr) : ClientPtr × World σ :=
  let p := w.nextClient
  (p,
    { w with
      heap := fun q => if q = p then ⟨conn⟩ else w.heap q
      nextClient := p + 1
      trace := w.trace ++ [.newClient conn p] })

/-- Method `addClient`: `m.Clients[client] = true`. -/
def addClient {σ : Type} (w : World σ) (client : ClientPtr) : World σ :=
  { w with m := { w.m with Clients := w.m.Clients.set client true } }

/-- Method `removeClient`: if the client is in `Clients`, closes its connection
and deletes it from `Clients`. -/
def removeClient {σ : Type} (w : World σ) (client : ClientPtr) : World σ :=
  match w.m.Clients.get client with
  | some _ =>
    let w1 := connClose w (w.heap client).connection
    { w1 with m := { w1.m with Clients := w1.m.Clients.delete client } }
  | none => w

/-- Handler `ServeWS`. `now` is the clock reading used by `VerifyOTP` and `hs`
the handshake outcome met by `Upgrade`. -/
def ServeWS {σ : Type} (w : World σ) (rw : ResponseWriter) (r : Request)
    (now : Nat) (hs : Handshake) : ResponseWriter × World σ :=
  let otp := r.query.Get "otp"
  if otp = "" then
    (rw.WriteHeader StatusUnauthorized, w)
  else
    let w1 := w.emit (.verifyOTP otp)
    let v := w1.m.otps.VerifyOTP otp now
    let w2 : World σ := { w1 with m := { w1.m with otps := v.2 } }
    if !v.1 then
      (rw.WriteHeader StatusUnauthorized, w2)
    else
      let w3 := w2.emit (.logPrintln "New connection")
      let w4 := w3.emit .upgrade
      let u := websocketUpgrader.Upgrade rw r hs
      match u.2 with
      | .error err => (u.1, w4.emit (.logPrintln err.msg))
      | .ok conn =>
        let nc := NewClient w4 conn
        let w6 := addClient nc.2 nc.1
        (u.1, (w6.emit (.goReadMessages nc.1)).emit (.goWriteMessages nc.1))

/-- The live count shown by the `/debug` endpoint: `len(managerAPI.Clients)`. -/
def liveCount {σ : Type} (w : World σ) : Nat := w.m.Clients.len

/-- Handler `LoginHandler`. `key` is the string generated inside `NewOTP` and
`now` the clock reading it records. -/
def LoginHandler {σ : Type} (w : World σ) (rw : ResponseWriter) (r : Request)
    (key : String) (now : Nat) : ResponseWriter × World σ :=
  match r.bodyDecode with
  | .error err => (httpError rw err.msg StatusBadRequest, w)
  | .ok req =>
    if req.Username = "percy" ∧ req.Password = "123" then
      let w1 := w.emit (.newOTP key)
      let o := w1.m.otps.NewOTP key now
      let w2 : World σ := { w1 with m := { w1.m with otps := o.2 } }
      let resp : response := { OTP := o.1.Key }
      match jsonMarshal resp with
      | .error err => (rw, w2.emit (.logPrintln err.msg))
      | .ok data => ((rw.WriteHeader StatusOK).Write (.json data), w2)
    else
      (rw.WriteHeader StatusUnauthorized, w)

/-- Every client in `Clients` is an allocated object. -/
def World.clientsAllocated {σ : Type} (w : World σ) : Prop :=
  ∀ p ∈ w.m.Clients.keys, p < w.nextClient

/-! ## Example inputs -/

/-- Manager built at start-up, with handlers acting on a counter. -/
def startManager : Manager Nat := NewManager

/-- World at start-up. -/
def startWorld : World Nat := World.init startManager 0

/-- Payload bytes of the message "hi" from "alice". -/
def hiAlice : List UInt8 :=
  "\x7b\"message\":\"hi\",\"from\":\"alice\"\x7d".toUTF8.data.toList

/-- World with one registered client (address 0, connection 7). -/
def oneClientWorld : World Nat := addClient (NewClient startWorld 7).2 (NewClient startWorld 7).1

/-- Login request with the accepted credentials. -/
def loginRequest : Request :=
  { query := ⟨GoMap.empty⟩
    Header := ⟨GoMap.empty⟩
    bodyDecode := .ok { Username := "percy", Password := "123" } }

/-- Login request whose body is not JSON: the decoder fails. -/
def badBodyRequest : Request :=
  { query := ⟨GoMap.empty⟩
    Header := ⟨GoMap.empty⟩
    bodyDecode := .error ⟨"unexpected end of JSON input"⟩ }

/-- Upgrade request `/ws?otp=abc` from the allowed origin (empty body). -/
def wsRequest : Request :=
  { query := ⟨⟨[("otp", ["abc"])]⟩⟩
    Header := ⟨⟨[("Origin", ["http://localhost:8080"])]⟩⟩
    bodyDecode := .error ⟨"EOF"⟩ }

/-- Upgrade request `/ws?otp=` from the allowed origin. -/
def emptyOtpRequest : Request :=
  { query := ⟨⟨[("otp", [""])]⟩⟩
    Header := ⟨⟨[("Origin", ["http://localhost:8080"])]⟩⟩
    bodyDecode := .error ⟨"EOF"⟩ }

/-- World after a login at instant 0 that issued the token `abc`. -/
def afterLogin : World Nat := (LoginHandler startWorld ResponseWriter.fresh loginRequest "abc" 0).2

/-- World after the token `abc` was then used for an admission at instant 1,
the handshake giving connection 7. -/
def afterAdmit : World Nat :=
  (ServeWS afterLogin ResponseWriter.fresh wsRequest 1 (.accepted 7)).2

/-! ## Lemmas on Go maps -/

namespace GoMap

variable {K V : Type} [DecidableEq K]

theorem get_eq_none_iff (m : GoMap K V) (k : K) : m.get k = none ↔ k ∉ m.keys := by
  unfold get keys
  cases h : m.entries.find? (fun p => decide (p.1 = k)) with
  | none =>
    simp only [true_iff]
    rw [List.find?_eq_none] at h
    intro hk
    obtain ⟨p, hp, rfl⟩ := List.mem_map.1 hk
    exact h p hp (by simp)
  | some p =>
    simp only [false_iff, not_not, reduceCtorEq]
    have h1 := List.mem_of_find?_eq_some h
    have h2 := List.find?_some h
    simp only [decide_eq_true_eq] at h2
    exact List.mem_map.2 ⟨p, h1, h2⟩

theorem get_delete_self (m : GoMap K V) (k : K) : (m.delete k).get k = none := by
  rw [get_eq_none_iff]
  unfold delete keys
  intro hk
  obtain ⟨p, hp, rfl⟩ := List.mem_map.1 hk
  simpa using (List.mem_filter.1 hp).2

theorem delete_of_not_mem (m : GoMap K V) (k : K) (h : k ∉ m.keys) : m.delete k = m := by
  unfold delete
  cases m with
  | mk es =>
    simp only [GoMap.mk.injEq]
    rw [List.filter_eq_self]
    intro p hp
    simp only [Bool.not_eq_eq_eq_not, Bool.not_true, decide_eq_false_iff_not]
    intro hk
    exact h (List.mem_map.2 ⟨p, hp, hk⟩)

theorem mem_keys_set (m : GoMap K V) (k : K) (v : V) (q : K) :
    q ∈ (m.set k v).keys ↔ q = k ∨ q ∈ m.keys := by
  unfold set delete keys
  simp only [List.map_cons, List.mem_cons, List.mem_map, List.mem_filter]
  constructor
  · rintro (h | ⟨p, ⟨hp, _⟩, rfl⟩)
    · exact Or.inl h
    · exact Or.inr ⟨p, hp, rfl⟩
  · rintro (h | ⟨p, hp, rfl⟩)
    · exact Or.inl h
    · by_cases hk : p.1 = k
      · exact Or.inl hk
      · exact Or.inr ⟨p, ⟨hp, by simpa using hk⟩, rfl⟩

theorem get_set_self (m : GoMap K V) (k : K) (v : V) : (m.set k v).get k = some v := by
  simp [set, get]

theorem get_set_of_ne (m : GoMap K V) (k : K) (v : V) (q : K) (h : q ≠ k) :
    (m.set k v).get q = m.get q := by
  have hfind : ∀ es : List (K × V),
      (es.filter (fun p => !decide (p.1 = k))).find? (fun p => decide (p.1 = q))
        = es.find? (fun p => decide (p.1 = q)) := by
    intro es
    induction es with
    | nil => rfl
    | cons a t ih =>
      by_cases hak : a.1 = k
      · have haq : ¬ a.1 = q := fun e => h (e.symm.trans hak)
        have h1 : ¬ ((fun p : K × V => !decide (p.1 = k)) a = true) := by simp [hak]
        have h2 : ¬ ((fun p : K × V => decide (p.1 = q)) a = true) := by simp [haq]
        rw [@List.filter_cons_of_neg _ (fun p : K × V => !decide (p.1 = k)) a t h1,
          @List.find?_cons_of_neg _ (fun p : K × V => decide (p.1 = q)) a _ h2]
        exact ih
      · have h1 : (fun p : K × V => !decide (p.1 = k)) a = true := by simp [hak]
        rw [@List.filter_cons_of_pos _ (fun p : K × V => !decide (p.1 = k)) a t h1]
        by_cases haq : a.1 = q
        · have h2 : (fun p : K × V => decide (p.1 = q)) a = true := by simp [haq]
          rw [@List.find?_cons_of_pos _ (fun p : K × V => decide (p.1 = q)) a _ h2,
            @List.find?_cons_of_pos _ (fun p : K × V => decide (p.1 = q)) a _ h2]
        · have h2 : ¬ ((fun p : K × V => decide (p.1 = q)) a = true) := by simp [haq]
          rw [@List.find?_cons_of_neg _ (fun p : K × V => decide (p.1 = q)) a _ h2,
            @List.find?_cons_of_neg _ (fun p : K × V => decide (p.1 = q)) a _ h2]
          exact ih
  have hkq : ¬ k = q := fun e => h e.symm
  unfold set get delete
  simp only [List.find?_cons, hkq, decide_False]
  rw [hfind]

theorem len_set_of_not_mem (m : GoMap K V) (k : K) (v : V) (h : k ∉ m.keys) :
    (m.set k v).len = m.len + 1 := by
  unfold set len
  rw [delete_of_not_mem m k h]
  rfl

end GoMap

/-! ## Dispatch -/

/-- C1: routing an event whose type is not a key of `Handlers` returns
`ErrEventNotSupported`, leaves the world as it was and so invokes no handler. -/
theorem routeEvent_unsupported {σ : Type} (w : World σ) (e : Event) (c : ClientPtr)
    (h : e.Type_ ∉ w.m.Handlers.keys) :
    (routeEvent w e c).1 = some ErrEventNotSupported ∧
      (routeEvent w e c).2 = w ∧
      handlerCalls (routeEvent w e c).2.trace = handlerCalls w.trace := by
  have hg : w.m.Handlers.get e.Type_ = none := (GoMap.get_eq_none_iff _ _).2 h
  simp [routeEvent, hg]

/-- Instance at the start-up world and an event of type `bogus`. -/
theorem routeEvent_unsupported_witness :
    ("bogus" ∉ startWorld.m.Handlers.keys) ∧
      (routeEvent startWorld ⟨"bogus", hiAlice⟩ 0).1 = some ErrEventNotSupported ∧
      (routeEvent startWorld ⟨"bogus", hiAlice⟩ 0).2 = startWorld ∧
      handlerCalls (routeEvent startWorld ⟨"bogus", hiAlice⟩ 0).2.trace
        = handlerCalls startWorld.trace :=
  ⟨by decide, routeEvent_unsupported startWorld ⟨"bogus", hiAlice⟩ 0 (by decide)⟩

/-- C2: routing an event whose type is registered with handler `h` runs `h`
once on exactly that event and client (the state after is the state `h` leaves,
the trace grows by that one invocation) and returns exactly what `h` returns;
nothing else in the world changes. -/
theorem routeEvent_supported {σ : Type} (w : World σ) (e : Event) (c : ClientPtr)
    (h : EventHandler σ) (hk : w.m.Handlers.get e.Type_ = some h) :
    (routeEvent w e c).1 = (h e c w.app).1 ∧
      (routeEvent w e c).2.app = (h e c w.app).2 ∧
      (routeEvent w e c).2.trace = w.trace ++ [Effect.handlerCall e.Type_ e c] ∧
      handlerCalls (routeEvent w e c).2.trace = handlerCalls w.trace ++ [(e.Type_, e, c)] ∧
      (routeEvent w e c).2.m.Clients = w.m.Clients ∧
      (routeEvent w e c).2.m.otps = w.m.otps ∧
      (routeEvent w e c).2.closeCalls = w.closeCalls := by
  unfold routeEvent
  rw [hk]
  cases hr : (h e c (w.emit (Effect.handlerCall e.Type_ e c)).app).1 with
  | none =>
    have hr2 : (h e c w.app).1 = none := hr
    simp [hr, hr2, World.emit, handlerCalls]
  | some err =>
    have hr2 : (h e c w.app).1 = some err := hr
    simp [hr, hr2, World.emit, handlerCalls]

/-- Instance at the start-up world and a `send_message` event carrying the
hi/alice payload, sent by client 0. -/
theorem routeEvent_supported_witness :
    startWorld.m.Handlers.get (Event.mk EventSendMessage hiAlice).Type_
        = some SendMessageHandler ∧
      (routeEvent startWorld ⟨EventSendMessage, hiAlice⟩ 0).1 = none ∧
      handlerCalls (routeEvent startWorld ⟨EventSendMessage, hiAlice⟩ 0).2.trace
        = [(EventSendMessage, ⟨EventSendMessage, hiAlice⟩, 0)] :=
  have h := routeEvent_supported startWorld ⟨EventSendMessage, hiAlice⟩ 0
    SendMessageHandler rfl
  ⟨rfl, h.1, h.2.2.2.1⟩

/-- C10 fails as stated: `new_message` is not a key of the table built by
`NewManager`, and routing an event of that type returns
`ErrEventNotSupported`. -/
theorem newMessage_not_registered :
    EventNewMessage ∉ startManager.Handlers.keys ∧
      (routeEvent startWorld ⟨EventNewMessage, hiAlice⟩ 0).1 = some ErrEventNotSupported :=
  ⟨by decide, rfl⟩

/-- C10 (amended): after `NewManager` the keys of `Handlers` are exactly
`send_message` and `change_room`; in every world holding that table, routing an
event of either type returns `nil`, so not `ErrEventNotSupported`. -/
theorem newManager_handlers {σ : Type} :
    (∀ t : String, t ∈ (NewManager : Manager σ).Handlers.keys ↔
        t = EventSendMessage ∨ t = EventChangeRoom) ∧
      (∀ (w : World σ) (e : Event) (c : ClientPtr),
        w.m.Handlers = (NewManager : Manager σ).Handlers →
        e.Type_ = EventSendMessage ∨ e.Type_ = EventChangeRoom →
        (routeEvent w e c).1 = none ∧
          (routeEvent w e c).1 ≠ some ErrEventNotSupported) := by
  refine ⟨?_, ?_⟩
  · intro t
    have hk : (NewManager : Manager σ).Handlers.keys = [EventChangeRoom, EventSendMessage] := by
      rfl
    rw [hk]
    simp only [List.mem_cons, List.mem_singleton, List.not_mem_nil, or_false]
    exact Or.comm
  · intro w e c hw ht
    have h1 : (NewManager : Manager σ).Handlers.get EventSendMessage
        = some SendMessageHandler := by rfl
    have h2 : (NewManager : Manager σ).Handlers.get EventChangeRoom
        = some ChatRoomHandler := by rfl
    rcases ht with ht | ht
    · have hr : (routeEvent w e c).1 = none := by
        simp [routeEvent, hw, ht, h1, SendMessageHandler]
      exact ⟨hr, by rw [hr]; exact fun hx => nomatch hx⟩
    · have hr : (routeEvent w e c).1 = none := by
        simp [routeEvent, hw, ht, h2, ChatRoomHandler]
      exact ⟨hr, by rw [hr]; exact fun hx => nomatch hx⟩

/-- Instance at the start-up world and a `change_room` event. -/
theorem newManager_handlers_witness :
    startWorld.m.Handlers = (NewManager : Manager Nat).Handlers ∧
      ((Event.mk EventChangeRoom hiAlice).Type_ = EventSendMessage ∨
        (Event.mk EventChangeRoom hiAlice).Type_ = EventChangeRoom) ∧
      (routeEvent startWorld ⟨EventChangeRoom, hiAlice⟩ 5).1 = none ∧
      (routeEvent startWorld ⟨EventChangeRoom, hiAlice⟩ 5).1 ≠ some ErrEventNotSupported :=
  ⟨rfl, Or.inr rfl,
    newManager_handlers.2 startWorld ⟨EventChangeRoom, hiAlice⟩ 5 rfl (Or.inr rfl)⟩

/-! ## Deregistration -/

/-- C3: `removeClient` is idempotent: a second call leaves the whole world
(live-set, close counts of every connection, trace of calls) as the first call
left it, and on a client that is not in the live-set it changes nothing, so
`Close` is not invoked. -/
theorem removeClient_idempotent {σ : Type} (w : World σ) (c : ClientPtr) :
    removeClient (removeClient w c) c = removeClient w c ∧
      (c ∉ w.m.Clients.keys → removeClient w c = w) := by
  have hnoop : ∀ v : World σ, v.m.Clients.get c = none → removeClient v c = v := by
    intro v hv
    simp [removeClient, hv]
  refine ⟨?_, fun h => hnoop w ((GoMap.get_eq_none_iff _ _).2 h)⟩
  apply hnoop
  cases hg : w.m.Clients.get c with
  | none => simp [removeClient, hg]
  | some b => simp [removeClient, hg, connClose, GoMap.get_delete_self]

/-- Instance at the world in which client 0 has just been removed: removing it
again changes nothing. -/
theorem removeClient_idempotent_witness :
    (0 ∉ (removeClient oneClientWorld 0).m.Clients.keys) ∧
      removeClient (removeClient oneClientWorld 0) 0 = removeClient oneClientWorld 0 :=
  ⟨by decide, (removeClient_idempotent (removeClient oneClientWorld 0) 0).2 (by decide)⟩

/-! ## Origin policy -/

/-- C8: `checkOrigin` accepts a request exactly when its `Origin` header is the
string `http://localhost:8080`: a request without that header is rejected, one
with it is accepted iff its (first) value equals that string; and `checkOrigin`
is the `CheckOrigin` of `websocketUpgrader`. -/
theorem checkOrigin_exact (r : Request) :
    (checkOrigin r = true ↔ r.Header.Get "Origin" = "http://localhost:8080") ∧
      (checkOrigin r =
        match r.Header.data.get "Origin" with
        | some (v :: _) => decide (v = "http://localhost:8080")
        | _ => false) ∧
      websocketUpgrader.CheckOrigin = checkOrigin := by
  refine ⟨by simp [checkOrigin], ?_, rfl⟩
  unfold checkOrigin Values.Get
  cases hg : r.Header.data.get "Origin" with
  | none => simp
  | some vs =>
    cases vs with
    | nil => simp
    | cons v t => simp

/-! ## Admission -/

/-- C4: when the `otp` query parameter is absent or empty, `ServeWS` answers
401 and returns with the world as it was: `VerifyOTP` is not called (the store
and the trace are unchanged), no upgrade is attempted and the live-set is
unchanged. -/
theorem ServeWS_missing_otp {σ : Type} (w : World σ) (rw : ResponseWriter) (r : Request)
    (now : Nat) (hs : Handshake)
    (h : r.query.data.get "otp" = none ∨ r.query.Get "otp" = "") :
    ServeWS w rw r now hs = (rw.WriteHeader StatusUnauthorized, w) ∧
      (ServeWS w ResponseWriter.fresh r now hs).1.status = some 401 ∧
      (ServeWS w rw r now hs).2.m.otps = w.m.otps ∧
      (ServeWS w rw r now hs).2.trace = w.trace ∧
      (ServeWS w rw r now hs).2.m.Clients = w.m.Clients := by
  have h0 : r.query.Get "otp" = "" := by
    rcases h with h | h
    · simp [Values.Get, h]
    · exact h
  have hgen : ∀ rw0 : ResponseWriter,
      ServeWS w rw0 r now hs = (rw0.WriteHeader StatusUnauthorized, w) := by
    intro rw0
    simp [ServeWS, h0]
  refine ⟨hgen rw, ?_, ?_, ?_, ?_⟩
  · rw [hgen]; rfl
  · rw [hgen]
  · rw [hgen]
  · rw [hgen]

/-- Instance at the request `/ws?otp=` after a login: 401, and no call is made. -/
theorem ServeWS_missing_otp_witness :
    (emptyOtpRequest.query.data.get "otp" = none ∨ emptyOtpRequest.query.Get "otp" = "") ∧
      (ServeWS afterLogin ResponseWriter.fresh emptyOtpRequest 1 (.accepted 7)).1.status
        = some 401 ∧
      (ServeWS afterLogin ResponseWriter.fresh emptyOtpRequest 1 (.accepted 7)).2.trace
        = afterLogin.trace :=
  have h := ServeWS_missing_otp afterLogin ResponseWriter.fresh emptyOtpRequest 1
    (.accepted 7) (Or.inr (by decide))
  ⟨Or.inr (by decide), h.2.1, h.2.2.2.1⟩

/-- C5: when `otp` is not empty and `VerifyOTP` returns false, `ServeWS` answers
401; the only call made is the one to `VerifyOTP` (no upgrade, no client
constructed, no pump started) and the live-set and live count are unchanged. -/
theorem ServeWS_rejected_otp {σ : Type} (w : World σ) (rw : ResponseWriter) (r : Request)
    (now : Nat) (hs : Handshake)
    (h1 : r.query.Get "otp" ≠ "")
    (h2 : (w.m.otps.VerifyOTP (r.query.Get "otp") now).1 = false) :
    (ServeWS w rw r now hs).1 = rw.WriteHeader StatusUnauthorized ∧
      (ServeWS w ResponseWriter.fresh r now hs).1.status = some 401 ∧
      (ServeWS w rw r now hs).2.trace = w.trace ++ [Effect.verifyOTP (r.query.Get "otp")] ∧
      (ServeWS w rw r now hs).2.m.Clients = w.m.Clients ∧
      liveCount (ServeWS w rw r now hs).2 = liveCount w ∧
      (ServeWS w rw r now hs).2.nextClient = w.nextClient ∧
      (ServeWS w rw r now hs).2.heap = w.heap := by
  have hgen : ∀ rw0 : ResponseWriter,
      ServeWS w rw0 r now hs =
        (rw0.WriteHeader StatusUnauthorized,
          { w with
            m := { w.m with otps := (w.m.otps.VerifyOTP (r.query.Get "otp") now).2 }
            trace := w.trace ++ [Effect.verifyOTP (r.query.Get "otp")] }) := by
    intro rw0
    simp [ServeWS, h1, World.emit, h2]
  refine ⟨?_, ?_, ?_, ?_, ?_, ?_, ?_⟩
  · rw [hgen]
  · rw [hgen]; rfl
  · rw [hgen]
  · rw [hgen]
  · rw [hgen]; rfl
  · rw [hgen]
  · rw [hgen]

/-- Instance at the second admission with the token `abc`: the first one left
live count 1, the second is answered 401 and the live count stays. -/
theorem ServeWS_rejected_otp_witness :
    wsRequest.query.Get "otp" ≠ "" ∧
      (afterAdmit.m.otps.VerifyOTP (wsRequest.query.Get "otp") 2).1 = false ∧
      liveCount afterAdmit = 1 ∧
      (ServeWS afterAdmit ResponseWriter.fresh wsRequest 2 (.accepted 8)).1.status = some 401 ∧
      liveCount (ServeWS afterAdmit ResponseWriter.fresh wsRequest 2 (.accepted 8)).2
        = liveCount afterAdmit :=
  have h := ServeWS_rejected_otp afterAdmit ResponseWriter.fresh wsRequest 2 (.accepted 8)
    (by decide) (by decide)
  ⟨by decide, by decide, by decide, h.2.1, h.2.2.2.2.1⟩

/-- Shape of the world after an admission that passed the credential check. -/
theorem ServeWS_accepted_eq {σ : Type} (w : World σ) (rw : ResponseWriter) (r : Request)
    (now : Nat) (hs : Handshake)
    (h1 : r.query.Get "otp" ≠ "")
    (h2 : (w.m.otps.VerifyOTP (r.query.Get "otp") now).1 = true) :
    ServeWS w rw r now hs =
      match (websocketUpgrader.Upgrade rw r hs).2 with
      | .error err =>
        ((websocketUpgrader.Upgrade rw r hs).1,
          { w with
            m := { w.m with otps := (w.m.otps.VerifyOTP (r.query.Get "otp") now).2 }
            trace := w.trace ++ [Effect.verifyOTP (r.query.Get "otp"),
              Effect.logPrintln "New connection", Effect.upgrade, Effect.logPrintln err.msg] })
      | .ok conn =>
        ((websocketUpgrader.Upgrade rw r hs).1,
          { w with
            m := { w.m with
              otps := (w.m.otps.VerifyOTP (r.query.Get "otp") now).2
              Clients := w.m.Clients.set w.nextClient true }
            heap := fun q => if q = w.nextClient then ⟨conn⟩ else w.heap q
            nextClient := w.nextClient + 1
            trace := w.trace ++ [Effect.verifyOTP (r.query.Get "otp"),
              Effect.logPrintln "New connection", Effect.upgrade,
              Effect.newClient conn w.nextClient, Effect.goReadMessages w.nextClient,
              Effect.goWriteMessages w.nextClient] }) := by
  cases hu : (websocketUpgrader.Upgrade rw r hs).2 with
  | error err => simp [ServeWS, h1, h2, hu, World.emit]
  | ok conn => simp [ServeWS, h1, h2, hu, World.emit, NewClient, addClient]

/-- C6: a freshly constructed Manager has live count 0; and when the
credential is accepted and the upgrade succeeds, in a world whose registered
clients are allocated objects, `ServeWS` registers exactly the newly
constructed client: the live count grows by exactly one, the new client is a
member, every earlier member remains one, and nothing else is added. -/
theorem ServeWS_admits_one {σ : Type} (app : σ) :
    liveCount (World.init (NewManager : Manager σ) app) = 0 ∧
      ∀ (w : World σ) (rw : ResponseWriter) (r : Request) (now : Nat) (hs : Handshake)
        (conn : ConnPtr),
        w.clientsAllocated →
        r.query.Get "otp" ≠ "" →
        (w.m.otps.VerifyOTP (r.query.Get "otp") now).1 = true →
        (websocketUpgrader.Upgrade rw r hs).2 = .ok conn →
        liveCount (ServeWS w rw r now hs).2 = liveCount w + 1 ∧
          (ServeWS w rw r now hs).2.m.Clients.get w.nextClient = some true ∧
          (ServeWS w rw r now hs).2.heap w.nextClient = ⟨conn⟩ ∧
          w.nextClient ∉ w.m.Clients.keys ∧
          (∀ p, p ∈ w.m.Clients.keys →
            (ServeWS w rw r now hs).2.m.Clients.get p = w.m.Clients.get p) ∧
          (∀ p, p ∈ (ServeWS w rw r now hs).2.m.Clients.keys ↔
            p = w.nextClient ∨ p ∈ w.m.Clients.keys) := by
  refine ⟨rfl, ?_⟩
  intro w rw r now hs conn hwf h1 h2 hu
  have hfresh : w.nextClient ∉ w.m.Clients.keys := fun hk => Nat.lt_irrefl _ (hwf _ hk)
  have heq := ServeWS_accepted_eq w rw r now hs h1 h2
  rw [hu] at heq
  simp only at heq
  rw [heq]
  refine ⟨?_, ?_, ?_, hfresh, ?_, ?_⟩
  · exact GoMap.len_set_of_not_mem _ _ _ hfresh
  · exact GoMap.get_set_self _ _ _
  · simp
  · intro p hp
    have hne : p ≠ w.nextClient := fun e => hfresh (e ▸ hp)
    exact GoMap.get_set_of_ne _ _ _ _ hne
  · intro p
    exact GoMap.mem_keys_set _ _ _ _

/-- Instance at the first admission with the token `abc` issued by a login on
the start-up world: live count 0 before, 1 after. -/
theorem ServeWS_admits_one_witness :
    afterLogin.clientsAllocated ∧
      wsRequest.query.Get "otp" ≠ "" ∧
      (afterLogin.m.otps.VerifyOTP (wsRequest.query.Get "otp") 1).1 = true ∧
      (websocketUpgrader.Upgrade ResponseWriter.fresh wsRequest (.accepted 7)).2 = .ok 7 ∧
      liveCount afterLogin = 0 ∧
      liveCount (ServeWS afterLogin ResponseWriter.fresh wsRequest 1 (.accepted 7)).2
        = liveCount afterLogin + 1 :=
  have hwf : afterLogin.clientsAllocated := fun p hp => nomatch hp
  ⟨hwf, by decide, by decide, rfl, by decide,
    ((ServeWS_admits_one (0 : Nat)).2 afterLogin ResponseWriter.fresh wsRequest 1 (.accepted 7) 7
      hwf (by decide) (by decide) rfl).1⟩

/-- C7: when the credential is accepted but the upgrade returns an error,
`ServeWS` logs the error and returns: the live-set and live count are
unchanged, no `Client` object is allocated, and the calls made are those to
`VerifyOTP`, the logger and `Upgrade` only (no client constructed, no pump
started). -/
theorem ServeWS_upgrade_failed {σ : Type} (w : World σ) (rw : ResponseWriter) (r : Request)
    (now : Nat) (hs : Handshake) (err : GoError)
    (h1 : r.query.Get "otp" ≠ "")
    (h2 : (w.m.otps.VerifyOTP (r.query.Get "otp") now).1 = true)
    (hu : (websocketUpgrader.Upgrade rw r hs).2 = .error err) :
    (ServeWS w rw r now hs).2.m.Clients = w.m.Clients ∧
      liveCount (ServeWS w rw r now hs).2 = liveCount w ∧
      (ServeWS w rw r now hs).2.nextClient = w.nextClient ∧
      (ServeWS w rw r now hs).2.heap = w.heap ∧
      (ServeWS w rw r now hs).2.trace =
        w.trace ++ [Effect.verifyOTP (r.query.Get "otp"),
          Effect.logPrintln "New connection", Effect.upgrade, Effect.logPrintln err.msg] ∧
      (∀ conn p, Effect.newClient conn p ∈ (ServeWS w rw r now hs).2.trace →
        Effect.newClient conn p ∈ w.trace) ∧
      (∀ p, Effect.goReadMessages p ∈ (ServeWS w rw r now hs).2.trace →
        Effect.goReadMessages p ∈ w.trace) ∧
      (∀ p, Effect.goWriteMessages p ∈ (ServeWS w rw r now hs).2.trace →
        Effect.goWriteMessages p ∈ w.trace) := by
  have heq := ServeWS_accepted_eq w rw r now hs h1 h2
  rw [hu] at heq
  simp only at heq
  rw [heq]
  refine ⟨rfl, rfl, rfl, rfl, rfl, ?_, ?_, ?_⟩
  · intro conn p hp
    simpa using hp
  · intro p hp
    simpa using hp
  · intro p hp
    simpa using hp

/-- Instance at an admission with a valid token whose handshake is refused. -/
theorem ServeWS_upgrade_failed_witness :
    wsRequest.query.Get "otp" ≠ "" ∧
      (afterLogin.m.otps.VerifyOTP (wsRequest.query.Get "otp") 1).1 = true ∧
      (websocketUpgrader.Upgrade ResponseWriter.fresh wsRequest
        (.failed 400 ⟨"websocket: client sent data before handshake is complete"⟩)).2
        = .error ⟨"websocket: client sent data before handshake is complete"⟩ ∧
      liveCount (ServeWS afterLogin ResponseWriter.fresh wsRequest 1
        (.failed 400 ⟨"websocket: client sent data before handshake is complete"⟩)).2
        = liveCount afterLogin :=
  ⟨by decide, by decide, rfl,
    (ServeWS_upgrade_failed afterLogin ResponseWriter.fresh wsRequest 1
      (.failed 400 ⟨"websocket: client sent data before handshake is complete"⟩)
      ⟨"websocket: client sent data before handshake is complete"⟩
      (by decide) (by decide) rfl).2.1⟩

/-! ## Credential issuance -/

/-- C9 fails as stated: a login request whose body does not decode is answered
with status 400, which is neither 200 nor 401. -/
theorem LoginHandler_bad_request :
    (LoginHandler startWorld ResponseWriter.fresh badBodyRequest "abc" 0).1.status = some 400 ∧
      (LoginHandler startWorld ResponseWriter.fresh badBodyRequest "abc" 0).1.status ≠ some 200 ∧
      (LoginHandler startWorld ResponseWriter.fresh badBodyRequest "abc" 0).1.status ≠ some 401 := by
  decide

/-- C9 (amended): `LoginHandler` answers in one of three ways. When the body
does not decode: status 400 and the world is unchanged (no token issued). When
it decodes to the accepted credentials: status 200 with the body `{otp: token}`
where the token is the key of the record `NewOTP` has just stored, and that
call is the only one made. Otherwise: status 401 and the world is unchanged
(no token issued). -/
theorem LoginHandler_responses {σ : Type} (w : World σ) (r : Request) (key : String)
    (now : Nat) :
    (∃ err, r.bodyDecode = .error err ∧
        (LoginHandler w ResponseWriter.fresh r key now).1.status = some 400 ∧
        (LoginHandler w ResponseWriter.fresh r key now).2 = w) ∨
      (∃ req, r.bodyDecode = .ok req ∧ (req.Username = "percy" ∧ req.Password = "123") ∧
        (LoginHandler w ResponseWriter.fresh r key now).1.status = some 200 ∧
        (LoginHandler w ResponseWriter.fresh r key now).1.body
          = [Written.json [("otp", (w.m.otps.NewOTP key now).1.Key)]] ∧
        (LoginHandler w ResponseWriter.fresh r key now).2.m.otps
          = (w.m.otps.NewOTP key now).2 ∧
        (LoginHandler w ResponseWriter.fresh r key now).2.trace
          = w.trace ++ [Effect.newOTP key] ∧
        (LoginHandler w ResponseWriter.fresh r key now).2.m.Clients = w.m.Clients) ∨
      (∃ req, r.bodyDecode = .ok req ∧ ¬ (req.Username = "percy" ∧ req.Password = "123") ∧
        (LoginHandler w ResponseWriter.fresh r key now).1.status = some 401 ∧
        (LoginHandler w ResponseWriter.fresh r key now).2 = w) := by
  cases hb : r.bodyDecode with
  | error err =>
    refine Or.inl ⟨err, rfl, ?_, ?_⟩
    · simp [LoginHandler, hb, httpError, ResponseWriter.Write, ResponseWriter.WriteHeader,
        ResponseWriter.fresh, StatusBadRequest]
    · simp [LoginHandler, hb]
  | ok req =>
    by_cases hc : req.Username = "percy" ∧ req.Password = "123"
    · refine Or.inr (Or.inl ⟨req, rfl, hc, ?_, ?_, ?_, ?_, ?_⟩)
      · simp [LoginHandler, hb, hc, jsonMarshal, ResponseWriter.Write,
          ResponseWriter.WriteHeader, ResponseWriter.fresh, StatusOK]
      · simp [LoginHandler, hb, hc, jsonMarshal, ResponseWriter.Write,
          ResponseWriter.WriteHeader, ResponseWriter.fresh, World.emit]
      · simp [LoginHandler, hb, hc, jsonMarshal, World.emit]
      · simp [LoginHandler, hb, hc, jsonMarshal, World.emit]
      · simp [LoginHandler, hb, hc, jsonMarshal, World.emit]
    · refine Or.inr (Or.inr ⟨req, rfl, hc, ?_, ?_⟩)
      · simp [LoginHandler, hb, hc, ResponseWriter.WriteHeader, ResponseWriter.fresh,
          StatusUnauthorized]
      · simp [LoginHandler, hb, hc]

/-! ## The allocation invariant -/

theorem GoMap.mem_keys_delete {K V : Type} [DecidableEq K] (m : GoMap K V) (k q : K)
    (h : q ∈ (m.delete k).keys) : q ∈ m.keys := by
  unfold GoMap.delete GoMap.keys at h
  obtain ⟨p, hp, rfl⟩ := List.mem_map.1 h
  exact List.mem_map.2 ⟨p, (List.mem_filter.1 hp).1, rfl⟩

/-- The registered clients of a world in which nothing has happened are
allocated objects (there are none). -/
theorem clientsAllocated_init {σ : Type} (app : σ) :
    (World.init (NewManager : Manager σ) app).clientsAllocated :=
  fun _ hp => nomatch hp

/-- Deregistration keeps the registered clients allocated. -/
theorem clientsAllocated_removeClient {σ : Type} (w : World σ) (c : ClientPtr)
    (h : w.clientsAllocated) : (removeClient w c).clientsAllocated := by
  intro p hp
  cases hg : w.m.Clients.get c with
  | none =>
    have he : removeClient w c = w := by simp [removeClient, hg]
    rw [he] at hp ⊢
    exact h p hp
  | some b =>
    have hk : (removeClient w c).m.Clients = w.m.Clients.delete c := by
      simp [removeClient, hg, connClose]
    have hn : (removeClient w c).nextClient = w.nextClient := by
      simp [removeClient, hg, connClose]
    rw [hk] at hp
    rw [hn]
    exact h p (GoMap.mem_keys_delete _ _ _ hp)

/-- Login keeps the registered clients allocated. -/
theorem clientsAllocated_LoginHandler {σ : Type} (w : World σ) (rw : ResponseWriter)
    (r : Request) (key : String) (now : Nat) (h : w.clientsAllocated) :
    (LoginHandler w rw r key now).2.clientsAllocated := by
  have hk : (LoginHandler w rw r key now).2.m.Clients = w.m.Clients ∧
      (LoginHandler w rw r key now).2.nextClient = w.nextClient := by
    unfold LoginHandler
    cases r.bodyDecode with
    | error err => exact ⟨rfl, rfl⟩
    | ok req =>
      by_cases hc : req.Username = "percy" ∧ req.Password = "123"
      · simp [hc, jsonMarshal, World.emit]
      · simp [hc]
  intro p hp
  rw [hk.1] at hp
  rw [hk.2]
  exact h p hp

/-- Admission keeps the registered clients allocated, whatever its outcome. -/
theorem clientsAllocated_ServeWS {σ : Type} (w : World σ) (rw : ResponseWriter)
    (r : Request) (now : Nat) (hs : Handshake) (h : w.clientsAllocated) :
    (ServeWS w rw r now hs).2.clientsAllocated := by
  by_cases h1 : r.query.Get "otp" = ""
  · have he : ServeWS w rw r now hs = (rw.WriteHeader StatusUnauthorized, w) := by
      simp [ServeWS, h1]
    rw [he]
    exact h
  · cases h2 : (w.m.otps.VerifyOTP (r.query.Get "otp") now).1 with
    | false =>
      have hk : (ServeWS w rw r now hs).2.m.Clients = w.m.Clients ∧
          (ServeWS w rw r now hs).2.nextClient = w.nextClient := by
        simp [ServeWS, h1, h2, World.emit]
      intro p hp
      rw [hk.1] at hp
      rw [hk.2]
      exact h p hp
    | true =>
      have heq := ServeWS_accepted_eq w rw r now hs h1 h2
      cases hu : (websocketUpgrader.Upgrade rw r hs).2 with
      | error err =>
        rw [hu] at heq
        simp only at heq
        rw [heq]
        exact h
      | ok conn =>
        rw [hu] at heq
        simp only at heq
        rw [heq]
        intro p hp
        rcases (GoMap.mem_keys_set _ _ _ _).1 hp with hp | hp
        · exact hp ▸ Nat.lt_succ_self _
        · exact Nat.lt_succ_of_lt (h p hp)

end Service
